import Mathlib

/-!
Verification of the Cyber Coliseum simulation engine.

This file gives a shallow embedding of the battle-simulation core
(`Battle` namespace of the source): the entity model (MovingEntity,
Ship/Bot, Projectile/Shot), the per-entity environment builder
(`Coliseum.getEnvironment`), the collision resolver
(`Coliseum.findAndResolveCollisions`), bounds enforcement
(`Coliseum.enforceBounds`) and the per-tick scheduler
(`Coliseum.updateEntities`), together with theorems about them.

Modelling choices:
* JS numbers are modelled as real numbers; `Math.cos`, `Math.sin`,
  `Math.sqrt`, `Math.atan2` become `Real.cos`, `Real.sin`, `Real.sqrt`
  and `Complex.arg` (`atan2 y x = Complex.arg ⟨x, y⟩`, which agrees
  with `Math.atan2` including `atan2 0 0 = 0`).
* JS object identity is modelled by a numeric `id` field; entities in a
  live set have pairwise distinct ids, and freshly spawned entities draw
  ids from a counter threaded through the tick.  A `Projectile.source`
  reference is stored as the id of the firing Ship.
* Classes collapse to one flat `Entity` structure with a `kind` tag
  (`ship` for `Ship`/`Bot`, `projectile` for `Projectile`/`Shot`);
  fields of the respectively other kind are inert.  The duck-typed
  probes of the source (`isEntity`: always true, `isMovingEntity`:
  always true, `isProjectile`: "damage" present, `isBot`: "initialize"
  present) become kind tests.
* A Bot's behavior binding (`thinkHandler`) is an arbitrary pure
  function from the intent record and the environment snapshot to a new
  intent record; this covers every script the adapter can run.
* Rendering-only state (colors, draw methods) is omitted: it is read by
  no simulation decision.
-/

namespace Battle

noncomputable section

/-- Collision classes of the source: `solid` collides with solids
(moving them apart) and with massless; `massless` collides with solids
but moves nothing. -/
inductive CollisionClass
  | solid
  | massless
deriving DecidableEq

/-- Kind tag replacing the source's class hierarchy: `ship` for
`Ship`/`Bot`, `projectile` for `Projectile`/`Shot`. -/
inductive EntityKind
  | ship
  | projectile
deriving DecidableEq

/-- Arena bounds record (interface `Bounds`). -/
structure Bounds where
  xMin : ℝ
  xMax : ℝ
  yMin : ℝ
  yMax : ℝ

/-- Enemy descriptor of an environment snapshot (interface `EnemyState`):
`direction` is `none` exactly when the source stores `null`. -/
structure EnemyState where
  x : ℝ
  y : ℝ
  radius : ℝ
  direction : Option ℝ
  speed : ℝ

/-- Projectile descriptor of an environment snapshot (interface
`ProjectileState`). -/
structure ProjectileState where
  x : ℝ
  y : ℝ
  direction : ℝ
  speed : ℝ

/-- Environment snapshot handed to a behavior step (interface
`Environment`). -/
structure Environment where
  bounds : Bounds
  enemy : Option EnemyState
  enemyProjectiles : List ProjectileState

/-- Mutable intent record handed to a behavior handler (interface
`RobotState`): `x`, `y`, `radius` are the read-only facts, the other
four fields are the read-write intent. -/
structure RobotState where
  x : ℝ
  y : ℝ
  radius : ℝ
  shootDirection : ℝ
  moveDirection : ℝ
  move : Bool
  shoot : Bool

/-- Flattened entity: the fields of `MovingEntity` plus the `Ship`
fields (`shootTimer`, `health`, `shoot`, `shootPeriod`, behavior
binding) and the `Projectile` fields (`source`, `damage`). -/
structure Entity where
  id : Nat
  kind : EntityKind
  collisionClass : CollisionClass
  x : ℝ
  y : ℝ
  radius : ℝ
  speed : ℝ
  moveDirection : ℝ
  shootDirection : ℝ
  move : Bool
  dead : Bool
  shootTimer : ℝ
  health : ℝ
  shootPeriod : ℝ
  shoot : Bool
  thinkHandler : RobotState → Environment → RobotState
  source : Nat
  damage : ℝ

instance : Inhabited Entity :=
  ⟨{ id := 0, kind := EntityKind.projectile,
     collisionClass := CollisionClass.massless,
     x := 0, y := 0, radius := 0, speed := 0, moveDirection := 0,
     shootDirection := 0, move := false, dead := false, shootTimer := 0,
     health := 0, shootPeriod := 0, shoot := false,
     thinkHandler := fun st _ => st, source := 0, damage := 0 }⟩

/-- Source: `Coliseum.maxDistance = 10` (arena half-width). -/
def maxDistance : ℝ := 10

/-- Source: `Coliseum.environmentBounds`. -/
def environmentBounds : Bounds :=
  ⟨-maxDistance, maxDistance, -maxDistance, maxDistance⟩

/-- Source: `Shot.shotRadius = 0.15`. -/
def shotRadius : ℝ := 0.15

/-- Source utility `getDistance(a, b)`. -/
def getDistance (x1 y1 x2 y2 : ℝ) : ℝ :=
  Real.sqrt ((x1 - x2) * (x1 - x2) + (y1 - y2) * (y1 - y2))

/-- `Math.atan2 y x`, embedded as the complex argument of `x + y·i`. -/
def atan2 (y x : ℝ) : ℝ :=
  Complex.arg ⟨x, y⟩

/-- Duck-typed probe `isProjectile` ("damage" in `a`). -/
def isProjectile (e : Entity) : Bool :=
  decide (e.kind = EntityKind.projectile)

/-- Duck-typed probe `isBot` ("initialize" in `a`); every Ship the
Coliseum creates is a Bot. -/
def isBot (e : Entity) : Bool :=
  decide (e.kind = EntityKind.ship)

/-- Source: `MovingEntity.update` — motion integration. -/
def MovingEntity.update (e : Entity) : Entity :=
  if e.move then
    { e with x := e.x + e.speed * Real.cos e.moveDirection,
             y := e.y + e.speed * Real.sin e.moveDirection }
  else e

/-- Source: `Coliseum.enforceBoundsOnCoordinate`. -/
def enforceBoundsOnCoordinate (x : ℝ) : ℝ :=
  max (-maxDistance) (min maxDistance x)

/-- Enemy descriptor built by `Coliseum.getEnvironment` for one solid
entity: position and radius raw; if the entity is moving, direction and
speed are derived from one projected tick of motion with each coordinate
clamped to the arena (`enforceBoundsOnCoordinate`), otherwise direction
is `null` and speed is `0`. -/
def mkEnemyState (e : Entity) : EnemyState :=
  if e.move then
    let nextX := enforceBoundsOnCoordinate (e.x + e.speed * Real.cos e.moveDirection)
    let nextY := enforceBoundsOnCoordinate (e.y + e.speed * Real.sin e.moveDirection)
    { x := e.x, y := e.y, radius := e.radius,
      direction := some (atan2 (nextY - e.y) (nextX - e.x)),
      speed := getDistance nextX nextY e.x e.y }
  else
    { x := e.x, y := e.y, radius := e.radius, direction := none, speed := 0 }

/-- Projectile descriptor built by `Coliseum.getEnvironment`. -/
def mkProjectileState (e : Entity) : ProjectileState :=
  ⟨e.x, e.y, e.moveDirection, e.speed⟩

/-- Source: `Coliseum.getEnvironment(self)`; the two filters are
`e !== self && e.collisionClass === solid` (with `[0] || null` giving at
most one enemy) and `isProjectile(e) && isMovingEntity(e) &&
e.source !== self` (`isMovingEntity` is true of every entity). -/
def getEnvironment (entities : List Entity) (self : Entity) : Environment :=
  { bounds := environmentBounds
    enemy :=
      ((entities.filter fun e =>
          decide (e.id ≠ self.id ∧ e.collisionClass = CollisionClass.solid)).map
        mkEnemyState).head?
    enemyProjectiles :=
      (entities.filter fun e => isProjectile e && decide (e.source ≠ self.id)).map
        mkProjectileState }

/-- Source: `Shot` constructor (radius `0.15`, color omitted, speed
`0.5`, damage `10`, massless, `move = true`, both directions equal);
`id` is the fresh identity of the new object. -/
def mkShot (id sourceId : Nat) (x y moveDirection : ℝ) : Entity :=
  { id := id, kind := EntityKind.projectile,
    collisionClass := CollisionClass.massless,
    x := x, y := y, radius := shotRadius, speed := 0.5,
    moveDirection := moveDirection, shootDirection := moveDirection,
    move := true, dead := false, shootTimer := 0, health := 0,
    shootPeriod := 0, shoot := false, thinkHandler := fun st _ => st,
    source := sourceId, damage := 10 }

/-- Source: `Bot` constructor via `Ship` (solid, radius `1`, speed
`0.2`, `move = false`, `shoot = false`, `shootTimer = 0`,
`health = 100`, `shootPeriod = 10`, behavior binding from the
initializer). -/
def mkBot (id : Nat) (x y moveDirection : ℝ)
    (handler : RobotState → Environment → RobotState) : Entity :=
  { id := id, kind := EntityKind.ship, collisionClass := CollisionClass.solid,
    x := x, y := y, radius := 1, speed := 0.2,
    moveDirection := moveDirection, shootDirection := moveDirection,
    move := false, dead := false, shootTimer := 0, health := 100,
    shootPeriod := 10, shoot := false, thinkHandler := handler,
    source := 0, damage := 0 }

/-- Intent record seeded from the current Ship state, as built at the
top of `Bot.think`. -/
def intentOf (e : Entity) : RobotState :=
  { x := e.x, y := e.y, radius := e.radius,
    shootDirection := e.shootDirection, moveDirection := e.moveDirection,
    move := e.move, shoot := e.shoot }

/-- Source: `Bot.think` — builds the intent record from the Ship, runs
the behavior handler, and copies back only the four read-write fields
`move`, `shoot`, `shootDirection`, `moveDirection`. -/
def Bot.think (e : Entity) (env : Environment) : Entity :=
  let st1 := e.thinkHandler (intentOf e) env
  { e with move := st1.move, shoot := st1.shoot,
           shootDirection := st1.shootDirection,
           moveDirection := st1.moveDirection }

/-- Source: `Ship.updateWithEnvironment` — think, then the shoot logic:
if the resolved intent shoots and the cooldown is not positive, reset
the cooldown to `shootPeriod` and spawn one Shot just outside the
Ship's radius along the aim direction; otherwise decrement a positive
cooldown.  (The fill-color update is rendering-only and omitted.)
`next` is the fresh-id counter for the spawned Shot. -/
def Ship.updateWithEnvironment (e : Entity) (env : Environment) (next : Nat) :
    Entity × List Entity × Nat :=
  let e1 := Bot.think e env
  if e1.shoot ∧ e1.shootTimer ≤ 0 then
    let sx := e1.x + (e1.radius + shotRadius) * 1.001 * Real.cos e1.shootDirection
    let sy := e1.y + (e1.radius + shotRadius) * 1.001 * Real.sin e1.shootDirection
    ({ e1 with shootTimer := e1.shootPeriod },
     [mkShot next e1.id sx sy e1.shootDirection], next + 1)
  else if 0 < e1.shootTimer then
    ({ e1 with shootTimer := e1.shootTimer - 1 }, [], next)
  else
    (e1, [], next)

/-- Dispatch of `updateWithEnvironment`: a Ship runs
`Ship.updateWithEnvironment`; every other entity inherits
`MovingEntity.updateWithEnvironment`, which returns `null` and touches
nothing. -/
def MovingEntity.updateWithEnvironment (e : Entity) (env : Environment) (next : Nat) :
    Entity × List Entity × Nat :=
  match e.kind with
  | EntityKind.ship => Ship.updateWithEnvironment e env next
  | EntityKind.projectile => (e, [], next)

/-- Source: `Coliseum.getCollisionOverlap`. -/
def getCollisionOverlap (a b : Entity) : ℝ :=
  let centerDistance := getDistance a.x a.y b.x b.y
  let overlapDistance := a.radius + b.radius - centerDistance
  if 0 < overlapDistance then overlapDistance else 0

/-- Dispatch of the protected `collidedInternal` hook: a Ship hit by a
Projectile subtracts its damage from health and sets
`dead = (health <= 0)`; every other case is a no-op. -/
def collidedInternal (a other : Entity) : Entity :=
  match a.kind with
  | EntityKind.ship =>
      if isProjectile other then
        { a with health := a.health - other.damage,
                 dead := decide (a.health - other.damage ≤ 0) }
      else a
  | EntityKind.projectile => a

/-- Source: `MovingEntity.collided` — called on the solid `a` when
colliding with massless `other`: marks `other` dead unconditionally
(`isEntity(other)` is true of every entity), then runs `a`'s
`collidedInternal` hook on it. -/
def MovingEntity.collided (a other : Entity) : Entity × Entity :=
  let other1 := { other with dead := true }
  (collidedInternal a other1, other1)

/-- Solid–solid branch of `Coliseum.findAndResolveCollisions`: push the
two entities apart symmetrically along the a-to-b bearing, each by half
the overlap scaled by `1.0001`. -/
def resolveSolidPair (a b : Entity) : Entity × Entity :=
  let directionAToB := atan2 (b.y - a.y) (b.x - a.x)
  let overlapDistance := getCollisionOverlap a b
  let dax := -overlapDistance / 2 * Real.cos directionAToB * 1.0001
  let day := -overlapDistance / 2 * Real.sin directionAToB * 1.0001
  ({ a with x := a.x + dax, y := a.y + day },
   { b with x := b.x - dax, y := b.y - day })

/-- One inner-loop step of `Coliseum.findAndResolveCollisions`: the
solid at slot `i` checks the entity at slot `j` in the current (mutated
in place) live set; `a !== b` is the id test. -/
def collideStep (i j : Nat) (es : List Entity) : List Entity :=
  let a := es.getD i default
  let b := es.getD j default
  if a.id ≠ b.id then
    if 0 < getCollisionOverlap a b then
      if b.collisionClass = CollisionClass.solid then
        let p := resolveSolidPair a b
        (es.set i p.1).set j p.2
      else
        let p := MovingEntity.collided a b
        (es.set i p.1).set j p.2
    else es
  else es

/-- Inner loop of `Coliseum.findAndResolveCollisions` for the solid at
slot `i`. -/
def scanFrom (es : List Entity) (i : Nat) : List Entity :=
  (List.range es.length).foldl (fun cur j => collideStep i j cur) es

/-- Outer-loop body of `Coliseum.findAndResolveCollisions`: only a
solid entity initiates a scan. -/
def outerStep (cur : List Entity) (i : Nat) : List Entity :=
  if (cur.getD i default).collisionClass = CollisionClass.solid then
    scanFrom cur i
  else cur

/-- Source: `Coliseum.findAndResolveCollisions` — only solids initiate;
each solid scans every other entity of the live set in order, resolving
solid–solid overlaps by separation and solid–massless overlaps by
impact. -/
def findAndResolveCollisions (es : List Entity) : List Entity :=
  (List.range es.length).foldl outerStep es

/-- Per-entity body of `Coliseum.enforceBounds`: a Projectile outside
the arena square is marked dead (its position untouched); every other
entity has both coordinates clamped into the square. -/
def enforceBoundsOne (e : Entity) : Entity :=
  if isProjectile e then
    if e.x < -maxDistance ∨ maxDistance < e.x ∨ e.y < -maxDistance ∨ maxDistance < e.y then
      { e with dead := true }
    else e
  else
    { e with x := enforceBoundsOnCoordinate e.x,
             y := enforceBoundsOnCoordinate e.y }

/-- Source: `Coliseum.enforceBounds` over the live set. -/
def enforceBounds (es : List Entity) : List Entity :=
  es.map enforceBoundsOne

/-- State of the update loop of `Coliseum.updateEntities`: the live
array being mutated in place, the accumulated `newEntities`, and the
fresh-id counter. -/
structure LoopState where
  entities : List Entity
  spawned : List Entity
  next : Nat

/-- Source: `inCombat` — more than one Bot is in the live set. -/
def inCombat (es : List Entity) : Bool :=
  decide (1 < (es.filter isBot).length)

/-- One iteration of the entity-update loop of
`Coliseum.updateEntities`: motion integration for the entity at slot
`i`, then (in combat; `isScriptable` is true of every entity) its
behavior step, whose environment is computed from the current live set
— with entities before slot `i` already moved and thought, slot `i`
moved, and later slots untouched. -/
def tickStep (combat : Bool) (s : LoopState) (i : Nat) : LoopState :=
  let es1 := s.entities.set i (MovingEntity.update (s.entities.getD i default))
  if combat then
    let e := es1.getD i default
    let env := getEnvironment es1 e
    let r := MovingEntity.updateWithEnvironment e env s.next
    { entities := es1.set i r.1, spawned := s.spawned ++ r.2.1, next := r.2.2 }
  else
    { entities := es1, spawned := s.spawned, next := s.next }

/-- Entity-update loop of `Coliseum.updateEntities` over the whole live
set (the array iterated is the one in place at loop entry; spawned
entities are kept aside). -/
def motionBehaviorPhase (combat : Bool) (es : List Entity) (next : Nat) : LoopState :=
  (List.range es.length).foldl (tickStep combat) ⟨es, [], next⟩

/-- Combat part of `Coliseum.updateEntities` up to (but excluding) the
final reap: run the update loop, append the spawned entities, resolve
collisions, enforce bounds. -/
def preReapTick (es : List Entity) (next : Nat) : List Entity × Nat :=
  let s := motionBehaviorPhase (inCombat es) es next
  (enforceBounds (findAndResolveCollisions (s.entities ++ s.spawned)), s.next)

/-- Source: `Coliseum.updateEntities` with `startTimer` elapsed (the
combat path): the pre-reap pipeline followed by reaping every dead
entity. -/
def updateEntitiesCore (es : List Entity) (next : Nat) : List Entity × Nat :=
  let r := preReapTick es next
  (r.1.filter (fun e => !e.dead), r.2)

/-- Motion phase as a whole-set pass, as the specification describes it
("motion integration for every live entity" before any behavior). -/
def movePhase (es : List Entity) : List Entity :=
  es.map MovingEntity.update

/-- One behavior-only loop iteration of the specification's phased
tick. -/
def behaviorPhaseStep (s : LoopState) (i : Nat) : LoopState :=
  let e := s.entities.getD i default
  let env := getEnvironment s.entities e
  let r := MovingEntity.updateWithEnvironment e env s.next
  { entities := s.entities.set i r.1, spawned := s.spawned ++ r.2.1, next := r.2.2 }

/-- Combat tick as the specification words it, for comparison against
`updateEntitiesCore`: (1) motion integration for every live entity,
(2) behavior step for every scriptable entity collecting spawns,
(3) append spawns, (4) collision resolution, (5) bounds enforcement,
(6) reap dead entities — six whole-set phases in strict order. -/
def specPhasedTick (es : List Entity) (next : Nat) : List Entity × Nat :=
  let es1 := movePhase es
  let s := (List.range es1.length).foldl behaviorPhaseStep ⟨es1, [], next⟩
  ((enforceBounds (findAndResolveCollisions (s.entities ++ s.spawned))).filter
      (fun e => !e.dead),
   s.next)

/-- Reachable-state facts of one entity, used by the dead-flag
monotonicity argument: every Ship-kind entity is solid and is dead only
with exhausted health (its `collidedInternal` writes
`dead = (health <= 0)` in the same assignment that lowers health), and
every projectile-kind entity carries nonnegative damage (every
projectile the engine creates is a Shot with damage `10`). -/
def InvE (e : Entity) : Prop :=
  (e.kind = EntityKind.ship →
    e.collisionClass = CollisionClass.solid ∧ (e.dead = true → e.health ≤ 0)) ∧
  (e.kind = EntityKind.projectile → 0 ≤ e.damage)

/-! ### Concrete states used by witnesses and counterexamples -/

/-- Behavior handler that changes nothing (the "sitting duck"
initializer). -/
def idHandler : RobotState → Environment → RobotState :=
  fun st _ => st

/-- Behavior handler that records the perceived enemy x-coordinate in
the move direction; any script can do this. -/
def envReaderHandler : RobotState → Environment → RobotState :=
  fun st env => { st with moveDirection := ((env.enemy.map EnemyState.x).getD 99) }

/-- Stationary Bot at the origin. -/
def shipA : Entity := mkBot 0 0 0 0 idHandler

/-- Stationary Bot at `(2, 0)` — tangent to `shipA`. -/
def shipB : Entity := mkBot 1 2 0 0 idHandler

/-- Shot at `(1, 0)` fired by `shipA`, overlapping both Bots. -/
def shotMid : Entity := mkShot 2 0 1 0 0

/-- Bot at the origin whose resolved intent requests shooting. -/
def shooterShip : Entity := { mkBot 0 0 0 0 idHandler with shoot := true }

/-- Already-dead Shot at the origin heading right. -/
def deadProjectile : Entity := { mkShot 0 7 0 0 0 with dead := true }

/-- Bot at the origin that copies the perceived enemy x-coordinate. -/
def botLeft : Entity := mkBot 0 0 0 0 envReaderHandler

/-- Moving Bot at `(5, 0)` heading right. -/
def botRight : Entity := { mkBot 1 5 0 0 idHandler with move := true }

/-- Bot at `(1, 0)`, overlapping `shipA` by `1`. -/
def shipTouching : Entity := mkBot 1 1 0 0 idHandler

/-- `botLeft` after thinking in the actual (interleaved) tick: it saw
the enemy still at `x = 5`. -/
def botLeftThought : Entity := { botLeft with moveDirection := 5 }

/-- `botLeft` after thinking in the specification's phased tick: it saw
the enemy already moved to `x = 5.2`. -/
def botLeftThoughtP : Entity := { botLeft with moveDirection := 5.2 }

/-- `botRight` after one tick of motion (`0.2 · cos 0` to the right). -/
def botRightMoved : Entity := { botRight with x := 5.2, y := 0 }

/-- Shot at `(0.5, 0)` fired by ship id `1`, overlapping `shipA`. -/
def shotNear : Entity := mkShot 3 1 0.5 0 0

/-- Shot at `(3, 3)` fired by ship id `1`. -/
def shotFromRight : Entity := mkShot 4 1 3 3 0

/-- Shot at `(20.5, 0)`, outside the arena square of half-width 10. -/
def strayShot : Entity := mkShot 5 0 20.5 0 0

/-- State of `shipA` after absorbing one `shotMid` hit. -/
def shipA90 : Entity := { shipA with health := 90 }

/-- State of `shipB` after absorbing one `shotMid` hit. -/
def shipB90 : Entity := { shipB with health := 90 }

/-- State of `shotMid` after being consumed by a solid contact. -/
def shotMidDead : Entity := { shotMid with dead := true }

/-! ### List access helpers -/

lemma getD_set_self {α : Type} (l : List α) (i : Nat) (a d : α) (h : i < l.length) :
    (l.set i a).getD i d = a := by
  rw [List.getD_eq_getElem?_getD, List.getElem?_set_self h]
  rfl

lemma getD_set_ne {α : Type} (l : List α) (i j : Nat) (a d : α) (h : i ≠ j) :
    (l.set i a).getD j d = l.getD j d := by
  rw [List.getD_eq_getElem?_getD, List.getElem?_set_ne h, ← List.getD_eq_getElem?_getD]

lemma getD_map_of_lt {α β : Type} (f : α → β) (l : List α) (i : Nat) (d : β) (d2 : α)
    (h : i < l.length) :
    (l.map f).getD i d = f (l.getD i d2) := by
  rw [List.getD_eq_getElem _ _ (by simpa using h), List.getD_eq_getElem _ _ h]
  exact List.getElem_map _

lemma getD_append_left {α : Type} (l l2 : List α) (i : Nat) (d : α) (h : i < l.length) :
    (l ++ l2).getD i d = l.getD i d := by
  rw [List.getD_eq_getElem?_getD, List.getElem?_append_left h, ← List.getD_eq_getElem?_getD]

lemma foldl_fixed {α β : Type} (l : List α) (f : β → α → β) (b : β)
    (h : ∀ x ∈ l, f b x = b) : l.foldl f b = b := by
  induction l with
  | nil => rfl
  | cons x xs ih =>
      rw [List.foldl_cons, h x (List.mem_cons_self x xs)]
      exact ih fun y hy => h y (List.mem_cons_of_mem x hy)

lemma getDistance_eq (x1 y1 x2 y2 r : ℝ) (hr : 0 ≤ r)
    (h : (x1 - x2) * (x1 - x2) + (y1 - y2) * (y1 - y2) = r * r) :
    getDistance x1 y1 x2 y2 = r := by
  unfold getDistance
  rw [h, Real.sqrt_mul_self hr]

/-! ### Basic facts about the behavior step -/

@[simp] lemma Bot.think_x (e : Entity) (env : Environment) :
    (Bot.think e env).x = e.x := rfl

@[simp] lemma Bot.think_y (e : Entity) (env : Environment) :
    (Bot.think e env).y = e.y := rfl

@[simp] lemma Bot.think_radius (e : Entity) (env : Environment) :
    (Bot.think e env).radius = e.radius := rfl

@[simp] lemma Bot.think_id (e : Entity) (env : Environment) :
    (Bot.think e env).id = e.id := rfl

@[simp] lemma Bot.think_kind (e : Entity) (env : Environment) :
    (Bot.think e env).kind = e.kind := rfl

@[simp] lemma Bot.think_collisionClass (e : Entity) (env : Environment) :
    (Bot.think e env).collisionClass = e.collisionClass := rfl

@[simp] lemma Bot.think_health (e : Entity) (env : Environment) :
    (Bot.think e env).health = e.health := rfl

@[simp] lemma Bot.think_dead (e : Entity) (env : Environment) :
    (Bot.think e env).dead = e.dead := rfl

@[simp] lemma Bot.think_shootTimer (e : Entity) (env : Environment) :
    (Bot.think e env).shootTimer = e.shootTimer := rfl

@[simp] lemma Bot.think_shootPeriod (e : Entity) (env : Environment) :
    (Bot.think e env).shootPeriod = e.shootPeriod := rfl

@[simp] lemma Bot.think_damage (e : Entity) (env : Environment) :
    (Bot.think e env).damage = e.damage := rfl

@[simp] lemma Bot.think_move (e : Entity) (env : Environment) :
    (Bot.think e env).move = (e.thinkHandler (intentOf e) env).move := rfl

@[simp] lemma Bot.think_shoot (e : Entity) (env : Environment) :
    (Bot.think e env).shoot = (e.thinkHandler (intentOf e) env).shoot := rfl

@[simp] lemma Bot.think_shootDirection (e : Entity) (env : Environment) :
    (Bot.think e env).shootDirection = (e.thinkHandler (intentOf e) env).shootDirection := rfl

@[simp] lemma Bot.think_moveDirection (e : Entity) (env : Environment) :
    (Bot.think e env).moveDirection = (e.thinkHandler (intentOf e) env).moveDirection := rfl

/-! ### C4 — the behavior step copies back only the intent fields -/

/-- C4. After a Ship's behavior step, only the four read-write intent
fields (`moveDirection`, `move`, `shootDirection`, `shoot`) are copied
back from the intent record into the Ship; the read-only fields `x`,
`y` and `radius` (and the Ship's identity, health and dead flag) are
unchanged by the behavior step, whatever the behavior handler did to
the intent record. -/
theorem behavior_step_copies_only_intent_fields
    (e : Entity) (env : Environment) (next : Nat) :
    (Bot.think e env).move = (e.thinkHandler (intentOf e) env).move ∧
    (Bot.think e env).shoot = (e.thinkHandler (intentOf e) env).shoot ∧
    (Bot.think e env).shootDirection = (e.thinkHandler (intentOf e) env).shootDirection ∧
    (Bot.think e env).moveDirection = (e.thinkHandler (intentOf e) env).moveDirection ∧
    (Bot.think e env).x = e.x ∧
    (Bot.think e env).y = e.y ∧
    (Bot.think e env).radius = e.radius ∧
    (Ship.updateWithEnvironment e env next).1.x = e.x ∧
    (Ship.updateWithEnvironment e env next).1.y = e.y ∧
    (Ship.updateWithEnvironment e env next).1.radius = e.radius ∧
    (Ship.updateWithEnvironment e env next).1.id = e.id ∧
    (Ship.updateWithEnvironment e env next).1.health = e.health ∧
    (Ship.updateWithEnvironment e env next).1.dead = e.dead := by
  refine ⟨rfl, rfl, rfl, rfl, rfl, rfl, rfl, ?_⟩
  simp only [Ship.updateWithEnvironment]
  split_ifs <;> simp

/-! ### C3 — a Ship spawns at most one Shot, only off cooldown and on
request -/

/-- C3. A Ship's behavior step spawns zero or one Projectile; it spawns
one exactly when the cooldown was not positive at the start of the tick
and the resolved intent (the state after `Bot.think`) requested
shooting.  When it fires, the cooldown is reset to `shootPeriod` and
the spawned Shot sits at an offset of `(radius + shotRadius) * 1.001`
(margin `1.001 > 1`) along the aim direction, with `moveDirection`
equal to the Ship's aim direction. -/
theorem ship_spawns_at_most_one_shot (e : Entity) (env : Environment) (next : Nat) :
    (Ship.updateWithEnvironment e env next).2.1.length ≤ 1 ∧
    ((Ship.updateWithEnvironment e env next).2.1.length = 1 ↔
      ((Bot.think e env).shoot = true ∧ e.shootTimer ≤ 0)) ∧
    ((Bot.think e env).shoot = true ∧ e.shootTimer ≤ 0 →
      (Ship.updateWithEnvironment e env next).1.shootTimer = e.shootPeriod ∧
      (Ship.updateWithEnvironment e env next).2.1 =
        [mkShot next e.id
          (e.x + (e.radius + shotRadius) * 1.001 *
            Real.cos ((Bot.think e env).shootDirection))
          (e.y + (e.radius + shotRadius) * 1.001 *
            Real.sin ((Bot.think e env).shootDirection))
          ((Bot.think e env).shootDirection)] ∧
      (∀ s ∈ (Ship.updateWithEnvironment e env next).2.1,
        s.moveDirection = (Bot.think e env).shootDirection ∧
        s.radius = shotRadius ∧ s.kind = EntityKind.projectile) ∧
      (1 : ℝ) < 1.001) := by
  by_cases h : (Bot.think e env).shoot = true ∧ (Bot.think e env).shootTimer ≤ 0
  · refine ⟨?_, ?_, ?_⟩
    · simp only [Ship.updateWithEnvironment, if_pos h]
      simp
    · simp only [Ship.updateWithEnvironment, if_pos h]
      simpa using h
    · intro _
      refine ⟨?_, ?_, ?_, by norm_num⟩
      · simp only [Ship.updateWithEnvironment, if_pos h]
        rfl
      · simp only [Ship.updateWithEnvironment, if_pos h]
        rfl
      · intro s hs
        simp only [Ship.updateWithEnvironment, if_pos h, List.mem_singleton] at hs
        subst hs
        exact ⟨rfl, rfl, rfl⟩
  · have h2 : ¬((Bot.think e env).shoot = true ∧ e.shootTimer ≤ 0) := by
      simpa using h
    refine ⟨?_, ?_, fun hc => absurd hc h2⟩
    · simp only [Ship.updateWithEnvironment, if_neg h]
      split_ifs <;> simp
    · simp only [Ship.updateWithEnvironment, if_neg h]
      constructor
      · intro hlen
        exfalso
        revert hlen
        split_ifs <;> simp
      · intro hc
        exact absurd hc h2

/-- Witness for C3: a Bot at the origin with `shoot = true`, cooldown
`0` and the identity handler fires exactly one Shot at
`(1.15115, 0)` heading along aim direction `0`, and its cooldown
resets to `10`. -/
theorem ship_spawns_at_most_one_shot_witness :
    ((Bot.think shooterShip (getEnvironment [] default)).shoot = true ∧
      shooterShip.shootTimer ≤ 0) ∧
    (Ship.updateWithEnvironment shooterShip (getEnvironment [] default) 5).1.shootTimer =
      shooterShip.shootPeriod ∧
    (Ship.updateWithEnvironment shooterShip (getEnvironment [] default) 5).2.1.length = 1 := by
  have hc : (Bot.think shooterShip (getEnvironment [] default)).shoot = true ∧
      shooterShip.shootTimer ≤ 0 :=
    ⟨rfl, by norm_num [shooterShip, mkBot]⟩
  have h := ship_spawns_at_most_one_shot shooterShip (getEnvironment [] default) 5
  exact ⟨hc, (h.2.2 hc).1, h.2.1.mpr hc⟩

/-! ### C9 — bounds enforcement kills stray Projectiles and clamps
Ships -/

/-- C9. In the bounds-enforcement phase, a Projectile outside the arena
square is marked dead with its position untouched (not bounced, not
clamped), a Projectile inside the square is untouched, and a
non-projectile has each coordinate clamped into the square with its
dead flag unchanged (it is never killed by bounds); entity `i` of the
live set is processed independently by `enforceBoundsOne`. -/
theorem bounds_kill_projectiles_clamp_ships (e : Entity) (es : List Entity) (i : Nat)
    (hi : i < es.length) :
    (isProjectile e = true →
      ((e.x < -maxDistance ∨ maxDistance < e.x ∨ e.y < -maxDistance ∨ maxDistance < e.y) →
        (enforceBoundsOne e).dead = true ∧ (enforceBoundsOne e).x = e.x ∧
          (enforceBoundsOne e).y = e.y) ∧
      (¬(e.x < -maxDistance ∨ maxDistance < e.x ∨ e.y < -maxDistance ∨ maxDistance < e.y) →
        enforceBoundsOne e = e)) ∧
    (isProjectile e = false →
      (enforceBoundsOne e).x = enforceBoundsOnCoordinate e.x ∧
      (enforceBoundsOne e).y = enforceBoundsOnCoordinate e.y ∧
      (enforceBoundsOne e).dead = e.dead) ∧
    (enforceBounds es).getD i default = enforceBoundsOne (es.getD i default) := by
  refine ⟨fun hp => ⟨fun hout => ?_, fun hin => ?_⟩, fun hnp => ?_, ?_⟩
  · unfold enforceBoundsOne
    rw [if_pos hp, if_pos hout]
    exact ⟨rfl, rfl, rfl⟩
  · unfold enforceBoundsOne
    rw [if_pos hp, if_neg hin]
  · unfold enforceBoundsOne
    rw [if_neg (by simp [hnp])]
    exact ⟨rfl, rfl, rfl⟩
  · exact getD_map_of_lt _ _ _ _ default hi

/-- Witness for C9: the Shot at `x = 20.5` (arena half-width 10) is
marked dead by bounds enforcement and keeps its position. -/
theorem bounds_kill_projectiles_clamp_ships_witness :
    isProjectile strayShot = true ∧
    (strayShot.x < -maxDistance ∨ maxDistance < strayShot.x ∨
      strayShot.y < -maxDistance ∨ maxDistance < strayShot.y) ∧
    (enforceBoundsOne strayShot).dead = true ∧
    (enforceBoundsOne strayShot).x = strayShot.x := by
  have hout : strayShot.x < -maxDistance ∨ maxDistance < strayShot.x ∨
      strayShot.y < -maxDistance ∨ maxDistance < strayShot.y :=
    Or.inr (Or.inl (by norm_num [strayShot, mkShot, maxDistance]))
  have h :=
    ((bounds_kill_projectiles_clamp_ships strayShot [strayShot] 0 (by simp)).1 rfl).1 hout
  exact ⟨rfl, hout, h.1, h.2.1⟩

/-! ### C7 — solid–solid separation is symmetric and sufficient -/

/-- Pushing the endpoint of the vector `(dx, dy)` a further distance
`q ≥ 0` along the bearing `atan2 dy dx` yields a vector of length
`old length + q`; this also covers the degenerate case
`dx = dy = 0`, where the bearing is `atan2 0 0 = 0`. -/
lemma dist_after_push (dx dy q : ℝ) (hq : 0 ≤ q) :
    Real.sqrt ((dx + q * Real.cos (atan2 dy dx)) * (dx + q * Real.cos (atan2 dy dx)) +
               (dy + q * Real.sin (atan2 dy dx)) * (dy + q * Real.sin (atan2 dy dx))) =
    Real.sqrt (dx * dx + dy * dy) + q := by
  set c := Real.cos (atan2 dy dx) with hc0
  set s := Real.sin (atan2 dy dx) with hs0
  set R := Real.sqrt (dx * dx + dy * dy) with hR
  have hRnn : 0 ≤ R := Real.sqrt_nonneg _
  have hsq : dx * dx + dy * dy = R * R :=
    (Real.mul_self_sqrt
      (by nlinarith [mul_self_nonneg dx, mul_self_nonneg dy])).symm
  have h2 : s * s + c * c = 1 := by
    have h := Real.sin_sq_add_cos_sq (atan2 dy dx)
    rw [hc0, hs0]
    nlinarith [h]
  have h1 : dx * c + dy * s = R := by
    by_cases hz : (⟨dx, dy⟩ : ℂ) = 0
    · have hdx : dx = 0 := by
        have := congrArg Complex.re hz
        simpa using this
      have hdy : dy = 0 := by
        have := congrArg Complex.im hz
        simpa using this
      rw [hdx, hdy] at hR ⊢
      simp [hR]
    · have habs : Complex.abs ⟨dx, dy⟩ = R := by
        rw [Complex.abs_apply, Complex.normSq_mk, hR]
      have hRpos : 0 < R := habs ▸ Complex.abs.pos hz
      have hcv : c = dx / R := by
        rw [hc0]
        show Real.cos (Complex.arg ⟨dx, dy⟩) = dx / R
        rw [Complex.cos_arg hz, habs]
      have hsv : s = dy / R := by
        rw [hs0]
        show Real.sin (Complex.arg ⟨dx, dy⟩) = dy / R
        rw [Complex.sin_arg, habs]
      rw [hcv, hsv]
      field_simp
      linarith [hsq]
  have expand : (dx + q * c) * (dx + q * c) + (dy + q * s) * (dy + q * s) =
      (R + q) * (R + q) := by
    linear_combination hsq + q * h1 + q * h1 + q * q * h2
  rw [expand, Real.sqrt_mul_self (by linarith)]

/-- C7. Resolving an overlapping solid–solid pair displaces `a` by the
exact negation of `b`'s displacement — each of magnitude `overlap / 2`
scaled by `1.0001` along the a-to-b bearing — and afterwards the
distance between the two centers is at least the sum of the radii;
solid–solid contact changes no health and no dead flag. -/
theorem solid_pair_separation_symmetric (a b : Entity)
    (_ha : a.collisionClass = CollisionClass.solid)
    (_hb : b.collisionClass = CollisionClass.solid)
    (hov : 0 < getCollisionOverlap a b) :
    (resolveSolidPair a b).1.x - a.x =
      -(getCollisionOverlap a b) / 2 *
        Real.cos (atan2 (b.y - a.y) (b.x - a.x)) * 1.0001 ∧
    (resolveSolidPair a b).1.y - a.y =
      -(getCollisionOverlap a b) / 2 *
        Real.sin (atan2 (b.y - a.y) (b.x - a.x)) * 1.0001 ∧
    (resolveSolidPair a b).1.x - a.x = -((resolveSolidPair a b).2.x - b.x) ∧
    (resolveSolidPair a b).1.y - a.y = -((resolveSolidPair a b).2.y - b.y) ∧
    a.radius + b.radius ≤
      getDistance (resolveSolidPair a b).1.x (resolveSolidPair a b).1.y
        (resolveSolidPair a b).2.x (resolveSolidPair a b).2.y ∧
    (resolveSolidPair a b).1.health = a.health ∧
    (resolveSolidPair a b).2.health = b.health ∧
    (resolveSolidPair a b).1.dead = a.dead ∧
    (resolveSolidPair a b).2.dead = b.dead := by
  have hoveq : getCollisionOverlap a b =
      a.radius + b.radius - getDistance a.x a.y b.x b.y := by
    simp only [getCollisionOverlap] at hov ⊢
    split_ifs at hov ⊢ with h
    · rfl
    · exact absurd hov (lt_irrefl 0)
  refine ⟨by simp only [resolveSolidPair]; ring, by simp only [resolveSolidPair]; ring,
    by simp only [resolveSolidPair]; ring, by simp only [resolveSolidPair]; ring,
    ?_, rfl, rfl, rfl, rfl⟩
  have hq : (0 : ℝ) ≤ getCollisionOverlap a b * 1.0001 :=
    le_of_lt (mul_pos hov (by norm_num))
  have hpush := dist_after_push (b.x - a.x) (b.y - a.y)
    (getCollisionOverlap a b * 1.0001) hq
  have hRold : Real.sqrt ((a.x - b.x) * (a.x - b.x) + (a.y - b.y) * (a.y - b.y)) =
      Real.sqrt ((b.x - a.x) * (b.x - a.x) + (b.y - a.y) * (b.y - a.y)) := by
    congr 1
    ring
  have hdist : getDistance (resolveSolidPair a b).1.x (resolveSolidPair a b).1.y
      (resolveSolidPair a b).2.x (resolveSolidPair a b).2.y =
      getDistance a.x a.y b.x b.y + getCollisionOverlap a b * 1.0001 := by
    simp only [resolveSolidPair]
    unfold getDistance
    rw [hRold, ← hpush]
    congr 1
    ring
  rw [hdist]
  have hle : getCollisionOverlap a b * 1 ≤ getCollisionOverlap a b * 1.0001 :=
    mul_le_mul_of_nonneg_left (by norm_num) (le_of_lt hov)
  linarith [hoveq, hle]

/-- Witness for C7: the tangent-overlapping Bots at `(0,0)` and `(1,0)`
(overlap `1`) end up at center distance at least `2` after the
separation step. -/
theorem solid_pair_separation_symmetric_witness :
    0 < getCollisionOverlap shipA shipTouching ∧
    shipA.radius + shipTouching.radius ≤
      getDistance (resolveSolidPair shipA shipTouching).1.x
        (resolveSolidPair shipA shipTouching).1.y
        (resolveSolidPair shipA shipTouching).2.x
        (resolveSolidPair shipA shipTouching).2.y ∧
    (resolveSolidPair shipA shipTouching).1.health = shipA.health := by
  have hov : 0 < getCollisionOverlap shipA shipTouching := by
    norm_num [getCollisionOverlap, getDistance, shipA, shipTouching, mkBot,
      Real.sqrt_one]
  have h := solid_pair_separation_symmetric shipA shipTouching rfl rfl hov
  exact ⟨hov, h.2.2.2.2.1, h.2.2.2.2.2.1⟩

/-! ### C8 — massless bodies die on solid contact and never interact
with each other -/

/-- C8. The impact hook marks the massless collider dead unconditionally
(whatever the solid's own `collidedInternal` reaction); an inner
collision-scan step run by a solid against an overlapping massless
entity marks that entity dead in place; and a live set containing no
solid entity is left untouched by the whole collision pass — only
solids initiate collision resolution, so two massless entities never
interact however much they overlap. -/
theorem massless_impact_dies_and_no_massless_interaction :
    (∀ a b : Entity, (MovingEntity.collided a b).2.dead = true) ∧
    (∀ (es : List Entity) (i j : Nat), j < es.length →
      (es.getD i default).collisionClass = CollisionClass.solid →
      (es.getD i default).id ≠ (es.getD j default).id →
      (es.getD j default).collisionClass = CollisionClass.massless →
      0 < getCollisionOverlap (es.getD i default) (es.getD j default) →
      ((collideStep i j es).getD j default).dead = true) ∧
    (∀ es : List Entity,
      (∀ e ∈ es, e.collisionClass = CollisionClass.massless) →
      findAndResolveCollisions es = es) := by
  refine ⟨fun a b => rfl, ?_, ?_⟩
  · intro es i j hj _hsolid hid hm hov
    unfold collideStep
    rw [if_pos hid, if_pos hov, if_neg (by rw [hm]; simp)]
    rw [getD_set_self _ _ _ _ (by simpa using hj)]
    rfl
  · intro es h
    unfold findAndResolveCollisions
    refine foldl_fixed _ _ _ fun i hi => ?_
    rw [List.mem_range] at hi
    have hmem : es.getD i default ∈ es := by
      rw [List.getD_eq_getElem _ _ hi]
      exact List.getElem_mem _
    unfold outerStep
    rw [if_neg]
    rw [h _ hmem]
    simp

/-- Witness for C8: the Shot at `(0.5, 0)` overlapping the solid Bot at
the origin (overlap `0.65`) is marked dead by the scan step. -/
theorem massless_impact_dies_witness :
    0 < getCollisionOverlap shipA shotNear ∧
    ((collideStep 0 1 [shipA, shotNear]).getD 1 default).dead = true ∧
    findAndResolveCollisions [shotNear, strayShot] = [shotNear, strayShot] := by
  have hd : getDistance shipA.x shipA.y shotNear.x shotNear.y = 0.5 := by
    refine getDistance_eq _ _ _ _ _ (by norm_num) ?_
    norm_num [shipA, shotNear, mkBot, mkShot]
  have hov : 0 < getCollisionOverlap shipA shotNear := by
    simp only [getCollisionOverlap, hd]
    norm_num [shipA, shotNear, mkBot, mkShot, shotRadius]
  have h := massless_impact_dies_and_no_massless_interaction
  refine ⟨hov, h.2.1 [shipA, shotNear] 0 1 (by norm_num) rfl ?_ rfl hov, ?_⟩
  · show shipA.id ≠ shotNear.id
    norm_num [shipA, shotNear, mkBot, mkShot]
  · refine h.2.2 _ fun e he => ?_
    simp only [List.mem_cons, List.not_mem_nil, or_false] at he
    rcases he with rfl | rfl
    · rfl
    · rfl

/-! ### Step lemmas for the collision scan -/

lemma collideStep_skip_self (i j : Nat) (es : List Entity)
    (h : (es.getD i default).id = (es.getD j default).id) :
    collideStep i j es = es := by
  simp only [collideStep]
  rw [if_neg (not_not_intro h)]

lemma collideStep_skip_far (i j : Nat) (es : List Entity)
    (h : ¬ 0 < getCollisionOverlap (es.getD i default) (es.getD j default)) :
    collideStep i j es = es := by
  simp only [collideStep]
  by_cases h1 : (es.getD i default).id ≠ (es.getD j default).id
  · rw [if_pos h1, if_neg h]
  · rw [if_neg h1]

lemma collideStep_impact (i j : Nat) (es : List Entity)
    (hid : (es.getD i default).id ≠ (es.getD j default).id)
    (hov : 0 < getCollisionOverlap (es.getD i default) (es.getD j default))
    (hm : (es.getD j default).collisionClass = CollisionClass.massless) :
    collideStep i j es =
      (es.set i (collidedInternal (es.getD i default)
          { es.getD j default with dead := true })).set j
        { es.getD j default with dead := true } := by
  simp only [collideStep, MovingEntity.collided]
  rw [if_pos hid, if_pos hov, if_neg (by rw [hm]; simp)]

/-! ### C5 — the enemy descriptor projects one tick and clamps -/

/-- C5. When exactly one other solid entity is in the live set (the
two-combatant situation — so it is trivially the nearest other solid),
the environment snapshot's enemy descriptor is built from it: raw
position and radius; and exactly when it is moving, a direction and
speed derived from one projected tick of motion with both coordinates
clamped to the arena (direction and speed of the clamped displacement,
not the raw `moveDirection`/`speed`); when it is not moving, direction
is `null` and speed is `0`. -/
theorem environment_enemy_projected_clamped (es : List Entity) (self : Entity)
    (e : Entity)
    (h : es.filter (fun e2 =>
        decide (e2.id ≠ self.id ∧ e2.collisionClass = CollisionClass.solid)) = [e]) :
    (getEnvironment es self).enemy = some (mkEnemyState e) ∧
    (e.move = true →
      (mkEnemyState e).direction =
        some (atan2
          (enforceBoundsOnCoordinate (e.y + e.speed * Real.sin e.moveDirection) - e.y)
          (enforceBoundsOnCoordinate (e.x + e.speed * Real.cos e.moveDirection) - e.x)) ∧
      (mkEnemyState e).speed =
        getDistance (enforceBoundsOnCoordinate (e.x + e.speed * Real.cos e.moveDirection))
          (enforceBoundsOnCoordinate (e.y + e.speed * Real.sin e.moveDirection))
          e.x e.y) ∧
    (e.move = false →
      (mkEnemyState e).direction = none ∧ (mkEnemyState e).speed = 0) ∧
    ((mkEnemyState e).x = e.x ∧ (mkEnemyState e).y = e.y ∧
      (mkEnemyState e).radius = e.radius) ∧
    (∀ e2 ∈ es.filter (fun e2 =>
        decide (e2.id ≠ self.id ∧ e2.collisionClass = CollisionClass.solid)),
      getDistance self.x self.y e.x e.y ≤ getDistance self.x self.y e2.x e2.y) := by
  refine ⟨?_, fun hm => ?_, fun hm => ?_, ⟨?_, ?_, ?_⟩, ?_⟩
  · simp only [getEnvironment, h, List.map_cons, List.map_nil, List.head?_cons]
  · constructor
    · simp [mkEnemyState, hm]
    · simp [mkEnemyState, hm]
  · constructor
    · simp [mkEnemyState, hm]
    · simp [mkEnemyState, hm]
  · simp only [mkEnemyState]
    split_ifs <;> rfl
  · simp only [mkEnemyState]
    split_ifs <;> rfl
  · simp only [mkEnemyState]
    split_ifs <;> rfl
  · intro e2 he2
    rw [h, List.mem_singleton] at he2
    rw [he2]

/-- Witness for C5: viewer `shipA` with live set `[shipA, botRight]`
sees exactly the moving `botRight` as enemy, with a projected-clamped
direction. -/
theorem environment_enemy_projected_clamped_witness :
    ([shipA, botRight].filter (fun e2 =>
        decide (e2.id ≠ shipA.id ∧ e2.collisionClass = CollisionClass.solid)) =
      [botRight]) ∧
    (getEnvironment [shipA, botRight] shipA).enemy = some (mkEnemyState botRight) ∧
    (mkEnemyState botRight).direction =
      some (atan2
        (enforceBoundsOnCoordinate (botRight.y + botRight.speed * Real.sin botRight.moveDirection) -
          botRight.y)
        (enforceBoundsOnCoordinate (botRight.x + botRight.speed * Real.cos botRight.moveDirection) -
          botRight.x)) := by
  have hf : [shipA, botRight].filter (fun e2 =>
      decide (e2.id ≠ shipA.id ∧ e2.collisionClass = CollisionClass.solid)) =
      [botRight] := by
    simp [shipA, botRight, mkBot]
  have h := environment_enemy_projected_clamped [shipA, botRight] shipA botRight hf
  exact ⟨hf, h.1, (h.2.1 rfl).1⟩

/-! ### C6 — environment snapshots exclude the viewer and its own
shots -/

/-- C6. The environment snapshot built for `self` never derives its
enemy descriptor from `self` (only from a solid entity of the live set
with a different identity), never lists a projectile whose source is
`self` (only projectiles of the live set with a different source), and
holds at most one enemy descriptor. -/
theorem environment_excludes_self_and_own_shots (es : List Entity) (self : Entity) :
    (∀ d, (getEnvironment es self).enemy = some d →
      ∃ e ∈ es, e.id ≠ self.id ∧ e.collisionClass = CollisionClass.solid ∧
        d = mkEnemyState e) ∧
    (∀ p ∈ (getEnvironment es self).enemyProjectiles,
      ∃ e ∈ es, isProjectile e = true ∧ e.source ≠ self.id ∧
        p = mkProjectileState e) ∧
    (∀ d d2, (getEnvironment es self).enemy = some d →
      (getEnvironment es self).enemy = some d2 → d = d2) := by
  refine ⟨?_, ?_, ?_⟩
  · intro d hd
    simp only [getEnvironment, List.head?_map] at hd
    obtain ⟨e, he1, he2⟩ := Option.map_eq_some'.mp hd
    have hmem := List.mem_of_mem_head? he1
    obtain ⟨hes, hprop⟩ := List.mem_filter.mp hmem
    have hprop2 : e.id ≠ self.id ∧ e.collisionClass = CollisionClass.solid :=
      of_decide_eq_true hprop
    exact ⟨e, hes, hprop2.1, hprop2.2, he2.symm⟩
  · intro p hp
    simp only [getEnvironment] at hp
    obtain ⟨e, hef, hpe⟩ := List.mem_map.mp hp
    obtain ⟨hes, hprop⟩ := List.mem_filter.mp hef
    obtain ⟨h1, h2⟩ := (Bool.and_eq_true _ _).mp hprop
    exact ⟨e, hes, h1, of_decide_eq_true h2, hpe.symm⟩
  · intro d d2 h1 h2
    rw [h1] at h2
    exact Option.some_injective _ h2

/-- Witness for C6: with live set `[shipA, botRight, shotMid,
shotFromRight]` and viewer `shipA`, the enemy descriptor comes from the
other solid `botRight` and the projectile list admits the foreign
`shotFromRight` (the viewer's own `shotMid` is excluded). -/
theorem environment_excludes_self_and_own_shots_witness :
    (∃ e ∈ [shipA, botRight, shotMid, shotFromRight], e.id ≠ shipA.id ∧
      e.collisionClass = CollisionClass.solid ∧
      mkEnemyState botRight = mkEnemyState e) ∧
    (∃ e ∈ [shipA, botRight, shotMid, shotFromRight], isProjectile e = true ∧
      e.source ≠ shipA.id ∧
      mkProjectileState shotFromRight = mkProjectileState e) := by
  have h := environment_excludes_self_and_own_shots
    [shipA, botRight, shotMid, shotFromRight] shipA
  refine ⟨h.1 (mkEnemyState botRight) ?_, h.2.1 (mkProjectileState shotFromRight) ?_⟩
  · simp [getEnvironment, shipA, botRight, shotMid, shotFromRight, mkBot, mkShot]
  · simp [getEnvironment, isProjectile, shipA, botRight, shotMid, shotFromRight,
      mkBot, mkShot]

/-! ### C10 — one projectile can damage two Ships in the same pass -/

/-- C10. In the configuration with Ships at `(0,0)` and `(2,0)` and a
single Shot at `(1,0)` (overlapping both, as happens when a shot
reaches the midpoint of two adjacent combatants), one collision pass
applies the Shot's damage to both Ships: the scan of the second solid
does not skip the projectile already marked dead by the first, so both
healths drop from `100` by the full damage `10` in the same tick while
only the Shot dies. -/
theorem projectile_damages_both_ships_same_tick :
    ((findAndResolveCollisions [shipA, shipB, shotMid]).getD 0 default).health = 90 ∧
    ((findAndResolveCollisions [shipA, shipB, shotMid]).getD 1 default).health = 90 ∧
    ((findAndResolveCollisions [shipA, shipB, shotMid]).getD 2 default).dead = true ∧
    ((findAndResolveCollisions [shipA, shipB, shotMid]).getD 0 default).dead = false ∧
    ((findAndResolveCollisions [shipA, shipB, shotMid]).getD 1 default).dead = false ∧
    shipA.health = 100 ∧ shipB.health = 100 ∧ shotMid.damage = 10 := by
  have hdAB : getDistance shipA.x shipA.y shipB.x shipB.y = 2 :=
    getDistance_eq _ _ _ _ 2 (by norm_num) (by norm_num [shipA, shipB, mkBot])
  have hovAB : ¬ 0 < getCollisionOverlap shipA shipB := by
    simp only [getCollisionOverlap, hdAB]
    norm_num [shipA, shipB, mkBot]
  have hdAS : getDistance shipA.x shipA.y shotMid.x shotMid.y = 1 :=
    getDistance_eq _ _ _ _ 1 (by norm_num) (by norm_num [shipA, shotMid, mkBot, mkShot])
  have hovAS : 0 < getCollisionOverlap shipA shotMid := by
    simp only [getCollisionOverlap, hdAS]
    norm_num [shipA, shotMid, mkBot, mkShot, shotRadius]
  have hdBA : getDistance shipB.x shipB.y shipA90.x shipA90.y = 2 :=
    getDistance_eq _ _ _ _ 2 (by norm_num)
      (by norm_num [shipA90, shipA, shipB, mkBot])
  have hovBA : ¬ 0 < getCollisionOverlap shipB shipA90 := by
    simp only [getCollisionOverlap, hdBA]
    norm_num [shipA90, shipA, shipB, mkBot]
  have hdBS : getDistance shipB.x shipB.y shotMidDead.x shotMidDead.y = 1 :=
    getDistance_eq _ _ _ _ 1 (by norm_num)
      (by norm_num [shipB, shotMidDead, shotMid, mkBot, mkShot])
  have hovBS : 0 < getCollisionOverlap shipB shotMidDead := by
    simp only [getCollisionOverlap, hdBS]
    norm_num [shipB, shotMidDead, shotMid, mkBot, mkShot, shotRadius]
  have hfalse : decide ((100 : ℝ) - 10 ≤ 0) = false := by
    rw [decide_eq_false_iff_not]
    norm_num
  have hA : collidedInternal shipA shotMidDead = shipA90 := by
    simp only [collidedInternal, isProjectile, shipA90, shipA, shotMidDead, shotMid,
      mkBot, mkShot]
    norm_num
  have hB : collidedInternal shipB shotMidDead = shipB90 := by
    simp only [collidedInternal, isProjectile, shipB90, shipB, shotMidDead, shotMid,
      mkBot, mkShot]
    norm_num
  have hscan0 : scanFrom [shipA, shipB, shotMid] 0 = [shipA90, shipB, shotMidDead] := by
    unfold scanFrom
    rw [show List.range ([shipA, shipB, shotMid] : List Entity).length = [0, 1, 2]
      from rfl]
    rw [List.foldl_cons, List.foldl_cons, List.foldl_cons, List.foldl_nil]
    rw [collideStep_skip_self 0 0 [shipA, shipB, shotMid] rfl]
    rw [collideStep_skip_far 0 1 [shipA, shipB, shotMid] (by exact hovAB)]
    rw [collideStep_impact 0 2 [shipA, shipB, shotMid]
      (by show shipA.id ≠ shotMid.id; norm_num [shipA, shotMid, mkBot, mkShot])
      (by exact hovAS) rfl]
    show [collidedInternal shipA shotMidDead, shipB, shotMidDead] = _
    rw [hA]
  have hscan1 : scanFrom [shipA90, shipB, shotMidDead] 1 =
      [shipA90, shipB90, shotMidDead] := by
    unfold scanFrom
    rw [show List.range ([shipA90, shipB, shotMidDead] : List Entity).length = [0, 1, 2]
      from rfl]
    rw [List.foldl_cons, List.foldl_cons, List.foldl_cons, List.foldl_nil]
    rw [collideStep_skip_far 1 0 [shipA90, shipB, shotMidDead] (by exact hovBA)]
    rw [collideStep_skip_self 1 1 [shipA90, shipB, shotMidDead] rfl]
    rw [collideStep_impact 1 2 [shipA90, shipB, shotMidDead]
      (by show shipB.id ≠ shotMidDead.id
          norm_num [shipB, shotMidDead, shotMid, mkBot, mkShot])
      (by exact hovBS) rfl]
    show [shipA90, collidedInternal shipB shotMidDead, shotMidDead] = _
    rw [hB]
  have s0 : outerStep [shipA, shipB, shotMid] 0 = [shipA90, shipB, shotMidDead] := by
    unfold outerStep
    rw [if_pos (show (([shipA, shipB, shotMid] : List Entity).getD 0
      default).collisionClass = CollisionClass.solid from rfl)]
    exact hscan0
  have s1 : outerStep [shipA90, shipB, shotMidDead] 1 =
      [shipA90, shipB90, shotMidDead] := by
    unfold outerStep
    rw [if_pos (show (([shipA90, shipB, shotMidDead] : List Entity).getD 1
      default).collisionClass = CollisionClass.solid from rfl)]
    exact hscan1
  have s2 : outerStep [shipA90, shipB90, shotMidDead] 2 =
      [shipA90, shipB90, shotMidDead] := by
    unfold outerStep
    rw [if_neg]
    show ¬ shotMidDead.collisionClass = CollisionClass.solid
    simp [shotMidDead, shotMid, mkShot]
  have houter : findAndResolveCollisions [shipA, shipB, shotMid] =
      [shipA90, shipB90, shotMidDead] := by
    unfold findAndResolveCollisions
    rw [show List.range ([shipA, shipB, shotMid] : List Entity).length = [0, 1, 2]
      from rfl]
    rw [List.foldl_cons, List.foldl_cons, List.foldl_cons, List.foldl_nil]
    rw [s0, s1, s2]
  rw [houter]
  refine ⟨by norm_num [shipA90, shipA, mkBot], by norm_num [shipB90, shipB, mkBot],
    rfl, rfl, rfl, by norm_num [shipA, mkBot], by norm_num [shipB, mkBot],
    by norm_num [shotMid, mkShot]⟩

/-! ### Invariant plumbing for dead-flag monotonicity (C2) -/

lemma foldl_induction {α β : Type} (P : β → Prop) (f : β → α → β) :
    ∀ (l : List α) (b : β), P b → (∀ s x, P s → P (f s x)) → P (l.foldl f b)
  | [], _, hb, _ => hb
  | x :: xs, b, hb, hf =>
      foldl_induction P f xs (f b x) (hf b x hb) hf

lemma InvE_default : InvE default :=
  ⟨fun h => (nomatch h), fun _ => le_refl 0⟩

lemma InvE_getD (es : List Entity) (h : ∀ e ∈ es, InvE e) (k : Nat) :
    InvE (es.getD k default) := by
  by_cases hk : k < es.length
  · refine h _ ?_
    rw [List.getD_eq_getElem _ _ hk]
    exact List.getElem_mem _
  · rw [List.getD_eq_default _ _ (Nat.le_of_not_lt hk)]
    exact InvE_default

lemma update_dead (e : Entity) : (MovingEntity.update e).dead = e.dead := by
  unfold MovingEntity.update
  split_ifs <;> rfl

lemma update_InvE (e : Entity) (h : InvE e) : InvE (MovingEntity.update e) := by
  unfold MovingEntity.update
  split_ifs
  · exact h
  · exact h

lemma uwe_dead (e : Entity) (env : Environment) (next : Nat) :
    (MovingEntity.updateWithEnvironment e env next).1.dead = e.dead := by
  unfold MovingEntity.updateWithEnvironment
  cases hk : e.kind
  · simp only [Ship.updateWithEnvironment]
    split_ifs <;> simp
  · rfl

lemma uwe_InvE (e : Entity) (env : Environment) (next : Nat) (h : InvE e) :
    InvE (MovingEntity.updateWithEnvironment e env next).1 ∧
    ∀ s ∈ (MovingEntity.updateWithEnvironment e env next).2.1, InvE s := by
  unfold MovingEntity.updateWithEnvironment
  cases hk : e.kind
  · have hth : InvE (Bot.think e env) := h
    constructor
    · simp only [Ship.updateWithEnvironment]
      split_ifs
      · exact hth
      · exact hth
      · exact hth
    · intro s hs
      simp only [Ship.updateWithEnvironment] at hs
      split_ifs at hs
      · rw [List.mem_singleton] at hs
        subst hs
        exact ⟨fun hcon => (nomatch hcon), fun _ => by norm_num [mkShot]⟩
      · exact absurd hs (List.not_mem_nil s)
      · exact absurd hs (List.not_mem_nil s)
  · exact ⟨h, fun s hs => absurd hs (List.not_mem_nil s)⟩

lemma collidedInternal_InvE (a b : Entity) (hIa : InvE a) :
    InvE (collidedInternal a b) := by
  unfold collidedInternal
  cases hk : a.kind
  · split_ifs with hp
    · constructor
      · intro _
        exact ⟨(hIa.1 hk).1, fun hd => of_decide_eq_true hd⟩
      · intro hcon
        simp at hcon
    · exact hIa
  · exact hIa

lemma collidedInternal_dead_mono (a b : Entity)
    (hah : a.kind = EntityKind.ship → a.health ≤ 0)
    (hdmg : isProjectile b = true → 0 ≤ b.damage)
    (hd : a.dead = true) : (collidedInternal a b).dead = true := by
  unfold collidedInternal
  cases hk : a.kind
  · split_ifs with hp
    · show decide (a.health - b.damage ≤ 0) = true
      rw [decide_eq_true_eq]
      have h1 := hah hk
      have h2 := hdmg hp
      linarith
    · exact hd
  · exact hd

lemma enforceBoundsOne_dead_mono (e : Entity) (h : e.dead = true) :
    (enforceBoundsOne e).dead = true := by
  unfold enforceBoundsOne
  split_ifs <;> first | rfl | exact h

lemma dead_set_set (cur : List Entity) (i i0 j : Nat) (p1 p2 : Entity)
    (hi : i < cur.length)
    (h1 : i0 = i → (cur.getD i default).dead = true → p1.dead = true)
    (h2 : j = i → (cur.getD i default).dead = true → p2.dead = true)
    (hd : (cur.getD i default).dead = true) :
    (((cur.set i0 p1).set j p2).getD i default).dead = true := by
  by_cases hji : j = i
  · subst hji
    rw [getD_set_self _ _ _ _ (by simpa using hi)]
    exact h2 rfl hd
  · rw [getD_set_ne _ _ _ _ _ hji]
    by_cases hii : i0 = i
    · subst hii
      rw [getD_set_self _ _ _ _ hi]
      exact h1 rfl hd
    · rw [getD_set_ne _ _ _ _ _ hii]
      exact hd

lemma dead_getD_lt (es : List Entity) (i : Nat)
    (hd : (es.getD i default).dead = true) : i < es.length := by
  by_contra hlt
  rw [List.getD_eq_default _ _ (Nat.le_of_not_lt hlt)] at hd
  exact (nomatch hd)

lemma loop_invariant (c : Bool) (es : List Entity) (next : Nat) (i : Nat)
    (hInv : ∀ e ∈ es, InvE e) :
    (motionBehaviorPhase c es next).entities.length = es.length ∧
    (∀ e ∈ (motionBehaviorPhase c es next).entities, InvE e) ∧
    (∀ e ∈ (motionBehaviorPhase c es next).spawned, InvE e) ∧
    ((es.getD i default).dead = true →
      ((motionBehaviorPhase c es next).entities.getD i default).dead = true) := by
  unfold motionBehaviorPhase
  refine foldl_induction
    (fun s : LoopState => s.entities.length = es.length ∧ (∀ e ∈ s.entities, InvE e) ∧
      (∀ e ∈ s.spawned, InvE e) ∧
      ((es.getD i default).dead = true → (s.entities.getD i default).dead = true))
    _ _ _ ⟨rfl, hInv, fun e he => absurd he (List.not_mem_nil e), fun h => h⟩ ?_
  rintro s k ⟨hlen, hes, hsp, hdead⟩
  simp only [tickStep]
  set es1 := s.entities.set k (MovingEntity.update (s.entities.getD k default))
    with hes1
  have hlen1 : es1.length = es.length := by
    rw [hes1]
    simpa using hlen
  have hmem1 : ∀ e ∈ es1, InvE e := by
    intro e he
    rcases List.mem_or_eq_of_mem_set he with h | h
    · exact hes e h
    · subst h
      exact update_InvE _ (InvE_getD _ hes k)
  have hdead1 : (es.getD i default).dead = true →
      (es1.getD i default).dead = true := by
    intro hd
    have hilt : i < es.length := dead_getD_lt es i hd
    by_cases hk : k = i
    · subst hk
      rw [hes1, getD_set_self _ _ _ _ (by rw [hlen]; exact hilt), update_dead]
      exact hdead hd
    · rw [hes1, getD_set_ne _ _ _ _ _ hk]
      exact hdead hd
  by_cases hc : c = true
  · rw [if_pos hc]
    refine ⟨by simpa using hlen1, ?_, ?_, ?_⟩
    · intro e he
      rcases List.mem_or_eq_of_mem_set he with h | h
      · exact hmem1 e h
      · subst h
        exact (uwe_InvE _ _ _ (InvE_getD _ hmem1 k)).1
    · intro e he
      rcases List.mem_append.mp he with h | h
      · exact hsp e h
      · exact (uwe_InvE _ _ _ (InvE_getD _ hmem1 k)).2 e h
    · intro hd
      have hilt : i < es.length := dead_getD_lt es i hd
      by_cases hk : k = i
      · subst hk
        rw [getD_set_self _ _ _ _ (by rw [hlen1]; exact hilt), uwe_dead]
        exact hdead1 hd
      · rw [getD_set_ne _ _ _ _ _ hk]
        exact hdead1 hd
  · rw [if_neg hc]
    exact ⟨hlen1, hmem1, hsp, hdead1⟩

lemma collideStep_invariant (i0 j : Nat) (cur : List Entity) (i : Nat)
    (hmem : ∀ e ∈ cur, InvE e) (hi : i < cur.length)
    (hd : (cur.getD i default).dead = true) :
    (∀ e ∈ collideStep i0 j cur, InvE e) ∧
    (collideStep i0 j cur).length = cur.length ∧
    ((collideStep i0 j cur).getD i default).dead = true := by
  simp only [collideStep]
  by_cases h1 : (cur.getD i0 default).id ≠ (cur.getD j default).id
  · rw [if_pos h1]
    by_cases h2 : 0 < getCollisionOverlap (cur.getD i0 default) (cur.getD j default)
    · rw [if_pos h2]
      by_cases h3 : (cur.getD j default).collisionClass = CollisionClass.solid
      · rw [if_pos h3]
        refine ⟨?_, by simp, ?_⟩
        · intro e he
          rcases List.mem_or_eq_of_mem_set he with h | h
          · rcases List.mem_or_eq_of_mem_set h with h4 | h4
            · exact hmem e h4
            · subst h4
              exact InvE_getD _ hmem i0
          · subst h
            exact InvE_getD _ hmem j
        · refine dead_set_set cur i i0 j _ _ hi ?_ ?_ hd
          · intro hii hdd
            show (cur.getD i0 default).dead = true
            rw [hii]
            exact hdd
          · intro hjj hdd
            show (cur.getD j default).dead = true
            rw [hjj]
            exact hdd
      · rw [if_neg h3]
        refine ⟨?_, by simp, ?_⟩
        · intro e he
          rcases List.mem_or_eq_of_mem_set he with h | h
          · rcases List.mem_or_eq_of_mem_set h with h4 | h4
            · exact hmem e h4
            · subst h4
              exact collidedInternal_InvE _ _ (InvE_getD _ hmem i0)
          · subst h
            have hIb := InvE_getD cur hmem j
            exact ⟨fun hbk => absurd (hIb.1 hbk).1 h3, fun hbp => hIb.2 hbp⟩
        · refine dead_set_set cur i i0 j _ _ hi ?_ ?_ hd
          · intro hii hdd
            refine collidedInternal_dead_mono _ _ ?_ ?_ ?_
            · intro hks
              have hIa := InvE_getD cur hmem i0
              refine (hIa.1 hks).2 ?_
              rw [hii]
              exact hdd
            · intro hbp
              have hIb := InvE_getD cur hmem j
              exact hIb.2 (of_decide_eq_true hbp)
            · show (cur.getD i0 default).dead = true
              rw [hii]
              exact hdd
          · intro hjj hdd
            rfl
    · rw [if_neg h2]
      exact ⟨hmem, rfl, hd⟩
  · rw [if_neg h1]
    exact ⟨hmem, rfl, hd⟩

lemma findAndResolveCollisions_invariant (base : List Entity) (i : Nat)
    (hmem : ∀ e ∈ base, InvE e) (hi : i < base.length)
    (hd : (base.getD i default).dead = true) :
    (∀ e ∈ findAndResolveCollisions base, InvE e) ∧
    (findAndResolveCollisions base).length = base.length ∧
    ((findAndResolveCollisions base).getD i default).dead = true := by
  unfold findAndResolveCollisions
  refine foldl_induction
    (fun cur => (∀ e ∈ cur, InvE e) ∧ cur.length = base.length ∧
      ((cur.getD i default).dead = true))
    outerStep _ _ ⟨hmem, rfl, hd⟩ ?_
  rintro cur i0 ⟨hm, hl, hdd⟩
  unfold outerStep
  split_ifs with hs
  · unfold scanFrom
    refine foldl_induction
      (fun cur2 => (∀ e ∈ cur2, InvE e) ∧ cur2.length = base.length ∧
        ((cur2.getD i default).dead = true))
      _ _ _ ⟨hm, hl, hdd⟩ ?_
    rintro cur2 j ⟨hm2, hl2, hd2⟩
    have h := collideStep_invariant i0 j cur2 i hm2 (by rw [hl2]; exact hi) hd2
    exact ⟨h.1, by rw [h.2.1]; exact hl2, h.2.2⟩
  · exact ⟨hm, hl, hdd⟩

lemma enforceBounds_dead (es : List Entity) (i : Nat) (hi : i < es.length)
    (hd : (es.getD i default).dead = true) :
    ((enforceBounds es).getD i default).dead = true := by
  unfold enforceBounds
  rw [getD_map_of_lt _ _ _ _ default hi]
  exact enforceBoundsOne_dead_mono _ hd

/-! ### C2 — the alive flag is monotone: dead entities never revive -/

/-- C2. Under the reachable-state invariant `InvE` (every Ship is solid
and dead only with exhausted health; every projectile deals
nonnegative damage — all engine projectiles are Shots with damage 10),
an entity dead at the start of a tick is still dead after the whole
pre-reap pipeline (motion, behavior, spawn append, collision
resolution, bounds enforcement); the full tick then reaps it, so the
live set never contains a dead entity; and in particular a Ship's
collision handler, which assigns `dead = (health <= 0)` on each
projectile hit, never resurrects an already-dead Ship. -/
theorem dead_monotone_through_tick (es : List Entity) (next : Nat) (i : Nat)
    (hInv : ∀ e ∈ es, InvE e) (hi : i < es.length)
    (hdead : (es.getD i default).dead = true) :
    (((preReapTick es next).1).getD i default).dead = true ∧
    (∀ e ∈ (updateEntitiesCore es next).1, e.dead = false) ∧
    (∀ a b : Entity, a.kind = EntityKind.ship → a.dead = true → a.health ≤ 0 →
      (isProjectile b = true → 0 ≤ b.damage) →
      (collidedInternal a b).dead = true) := by
  refine ⟨?_, ?_, ?_⟩
  · simp only [preReapTick]
    have hloop := loop_invariant (inCombat es) es next i hInv
    set s := motionBehaviorPhase (inCombat es) es next with hs
    have hbaseInv : ∀ e ∈ s.entities ++ s.spawned, InvE e := by
      intro e he
      rcases List.mem_append.mp he with h | h
      · exact hloop.2.1 e h
      · exact hloop.2.2.1 e h
    have hilen : i < (s.entities ++ s.spawned).length := by
      rw [List.length_append]
      have h1 := hloop.1
      omega
    have hdead1 : ((s.entities ++ s.spawned).getD i default).dead = true := by
      rw [getD_append_left _ _ _ _ (by rw [hloop.1]; exact hi)]
      exact hloop.2.2.2 hdead
    have hcoll := findAndResolveCollisions_invariant (s.entities ++ s.spawned) i
      hbaseInv hilen hdead1
    exact enforceBounds_dead _ i (by rw [hcoll.2.1]; exact hilen) hcoll.2.2
  · intro e he
    simp only [updateEntitiesCore] at he
    simpa using List.of_mem_filter he
  · intro a b hk hd hh hdm
    exact collidedInternal_dead_mono a b (fun _ => hh) hdm hd

/-- Witness for C2: the already-dead Shot at the origin is still dead
after the pre-reap pipeline of a tick. -/
theorem dead_monotone_through_tick_witness :
    InvE deadProjectile ∧
    (((preReapTick [deadProjectile] 3).1).getD 0 default).dead = true := by
  have hInv : InvE deadProjectile :=
    ⟨fun h => (nomatch h), fun _ => by norm_num [deadProjectile, mkShot]⟩
  refine ⟨hInv, (dead_monotone_through_tick [deadProjectile] 3 0 ?_ (by norm_num) rfl).1⟩
  intro e he
  simp only [List.mem_singleton] at he
  subst he
  exact hInv

/-! ### C1 — tick phase structure: motion and behavior are interleaved
per entity -/

lemma set_getD_self {α : Type} (l : List α) (k : Nat) (d : α) :
    l.set k (l.getD k d) = l := by
  by_cases hk : k < l.length
  · refine List.ext_getElem? fun n => ?_
    by_cases hn : k = n
    · subst hn
      rw [List.getElem?_set_self hk, List.getD_eq_getElem _ _ hk,
        List.getElem?_eq_getElem hk]
    · rw [List.getElem?_set_ne hn]
  · rw [List.set_eq_of_length_le (Nat.le_of_not_lt hk)]

lemma tickStep_eq_behaviorStep (s : LoopState) (k : Nat)
    (hm : (s.entities.getD k default).move = false) :
    tickStep true s k = behaviorPhaseStep s k := by
  have h1 : MovingEntity.update (s.entities.getD k default) =
      s.entities.getD k default := by
    unfold MovingEntity.update
    rw [if_neg (fun hc => Bool.false_ne_true (hm ▸ hc))]
  simp only [tickStep, behaviorPhaseStep]
  rw [if_pos trivial, h1, set_getD_self]

lemma fold_eq_aux : ∀ (r : List Nat) (s : LoopState),
    r.Nodup → (∀ k ∈ r, (s.entities.getD k default).move = false) →
    r.foldl (tickStep true) s = r.foldl behaviorPhaseStep s
  | [], _, _, _ => rfl
  | k :: r, s, hnd, hmv => by
      rw [List.foldl_cons, List.foldl_cons,
        tickStep_eq_behaviorStep s k (hmv k (List.mem_cons_self k r))]
      refine fold_eq_aux r (behaviorPhaseStep s k) hnd.of_cons fun m hm => ?_
      have hmk : m ≠ k := fun he => (List.nodup_cons.mp hnd).1 (he ▸ hm)
      show (((s.entities.set k
          (MovingEntity.updateWithEnvironment (s.entities.getD k default)
            (getEnvironment s.entities (s.entities.getD k default)) s.next).1)).getD
          m default).move = false
      rw [getD_set_ne _ _ _ _ _ fun he => hmk he.symm]
      exact hmv m (List.mem_cons_of_mem k hm)

/-- C1 (amended). The combat tick is the strict-order composition of
the whole-set phases spawn-append, collision resolution, bounds
enforcement and reap applied to the result of the entity-update loop —
but that first phase interleaves motion and behavior per entity (each
entity moves, then immediately thinks against the current, partially
updated live set) rather than running motion for every entity before
any behavior.  Whenever no live entity is moving, motion is a no-op and
the tick coincides with the specification's fully phased six-step
description. -/
theorem updateEntities_interleaves_motion_and_behavior :
    (∀ (es : List Entity) (next : Nat),
      updateEntitiesCore es next =
        ((enforceBounds (findAndResolveCollisions
            ((motionBehaviorPhase (inCombat es) es next).entities ++
              (motionBehaviorPhase (inCombat es) es next).spawned))).filter
            (fun e => !e.dead),
          (motionBehaviorPhase (inCombat es) es next).next)) ∧
    (∀ (es : List Entity) (next : Nat), inCombat es = true →
      (∀ e ∈ es, e.move = false) →
      updateEntitiesCore es next = specPhasedTick es next) := by
  refine ⟨fun es next => rfl, fun es next hcomb hmv => ?_⟩
  have hmove : movePhase es = es := by
    have hupd : ∀ e ∈ es, MovingEntity.update e = e := by
      intro e he
      unfold MovingEntity.update
      rw [if_neg (fun hc => Bool.false_ne_true ((hmv e he) ▸ hc))]
    unfold movePhase
    calc es.map MovingEntity.update = es.map id := List.map_congr_left hupd
      _ = es := List.map_id es
  simp only [updateEntitiesCore, preReapTick, specPhasedTick, motionBehaviorPhase]
  rw [hcomb, hmove]
  rw [fold_eq_aux (List.range es.length) ⟨es, [], next⟩ (List.nodup_range es.length)
    (fun k hk => by
      have hk2 : k < es.length := List.mem_range.mp hk
      show ((es.getD k default)).move = false
      rw [List.getD_eq_getElem _ _ hk2]
      exact hmv _ (List.getElem_mem _))]

/-- Witness for C1 (amended): two stationary Bots are in combat and,
because nothing moves, the actual tick agrees with the phased
description on them. -/
theorem updateEntities_interleaves_motion_and_behavior_witness :
    inCombat [shipA, shipTouching] = true ∧
    (∀ e ∈ ([shipA, shipTouching] : List Entity), e.move = false) ∧
    updateEntitiesCore [shipA, shipTouching] 2 =
      specPhasedTick [shipA, shipTouching] 2 := by
  have hc : inCombat [shipA, shipTouching] = true := rfl
  have hm : ∀ e ∈ ([shipA, shipTouching] : List Entity), e.move = false := by
    intro e he
    simp only [List.mem_cons, List.not_mem_nil, or_false] at he
    rcases he with rfl | rfl
    · rfl
    · rfl
  exact ⟨hc, hm,
    updateEntities_interleaves_motion_and_behavior.2 [shipA, shipTouching] 2 hc hm⟩

lemma uwe_noop (e : Entity) (env : Environment) (next : Nat)
    (hk : e.kind = EntityKind.ship)
    (hshoot : (Bot.think e env).shoot = false)
    (htimer : (Bot.think e env).shootTimer = 0) :
    MovingEntity.updateWithEnvironment e env next = (Bot.think e env, [], next) := by
  unfold MovingEntity.updateWithEnvironment
  cases hkk : e.kind
  · simp only [Ship.updateWithEnvironment]
    rw [if_neg (show ¬((Bot.think e env).shoot = true ∧ (Bot.think e env).shootTimer ≤ 0)
      from fun hc => by rw [hshoot] at hc; exact Bool.false_ne_true hc.1)]
    rw [if_neg (show ¬(0 < (Bot.think e env).shootTimer)
      from fun hc => by rw [htimer] at hc; exact lt_irrefl 0 hc)]
  · rw [hkk] at hk
    exact absurd hk (by simp)

lemma tickStep_combat_eq (s : LoopState) (k : Nat) (es1 : List Entity)
    (e2 : Entity) (sp : List Entity) (nx : Nat)
    (h1 : s.entities.set k (MovingEntity.update (s.entities.getD k default)) = es1)
    (h2 : MovingEntity.updateWithEnvironment (es1.getD k default)
        (getEnvironment es1 (es1.getD k default)) s.next = (e2, sp, nx)) :
    tickStep true s k = ⟨es1.set k e2, s.spawned ++ sp, nx⟩ := by
  simp only [tickStep]
  rw [if_pos trivial, h1, h2]

lemma behaviorPhaseStep_eq (s : LoopState) (k : Nat)
    (e2 : Entity) (sp : List Entity) (nx : Nat)
    (h2 : MovingEntity.updateWithEnvironment (s.entities.getD k default)
        (getEnvironment s.entities (s.entities.getD k default)) s.next = (e2, sp, nx)) :
    behaviorPhaseStep s k = ⟨s.entities.set k e2, s.spawned ++ sp, nx⟩ := by
  simp only [behaviorPhaseStep]
  rw [h2]

/-- C1 counterexample: with `botLeft` (stationary, copying the
perceived enemy x-coordinate into its move direction) and `botRight`
(moving right at `0.2` from `x = 5`), the actual tick lets `botLeft`
see `x = 5` (the enemy has not moved yet when `botLeft` thinks), while
the specification's phased tick lets it see `x = 5.2`; the two tick
functions differ at this state. -/
theorem updateEntities_ne_specPhasedTick :
    updateEntitiesCore [botLeft, botRight] 2 ≠ specPhasedTick [botLeft, botRight] 2 := by
  have hmv : MovingEntity.update botRight = botRightMoved := by
    simp only [MovingEntity.update, botRight, botRightMoved, mkBot]
    norm_num [Real.cos_zero, Real.sin_zero]
  have hupd0 : MovingEntity.updateWithEnvironment botLeft
      (getEnvironment [botLeft, botRight] botLeft) 2 = (botLeftThought, [], 2) := by
    rw [uwe_noop botLeft (getEnvironment [botLeft, botRight] botLeft) 2 rfl rfl rfl]
    rfl
  have hupd1 : MovingEntity.updateWithEnvironment botRightMoved
      (getEnvironment [botLeftThought, botRightMoved] botRightMoved) 2 =
      (botRightMoved, [], 2) := by
    rw [uwe_noop botRightMoved
      (getEnvironment [botLeftThought, botRightMoved] botRightMoved) 2 rfl rfl rfl]
    rfl
  have hupdP0 : MovingEntity.updateWithEnvironment botLeft
      (getEnvironment [botLeft, botRightMoved] botLeft) 2 = (botLeftThoughtP, [], 2) := by
    rw [uwe_noop botLeft (getEnvironment [botLeft, botRightMoved] botLeft) 2 rfl rfl rfl]
    rfl
  have hupdP1 : MovingEntity.updateWithEnvironment botRightMoved
      (getEnvironment [botLeftThoughtP, botRightMoved] botRightMoved) 2 =
      (botRightMoved, [], 2) := by
    rw [uwe_noop botRightMoved
      (getEnvironment [botLeftThoughtP, botRightMoved] botRightMoved) 2 rfl rfl rfl]
    rfl
  have hstep0 : tickStep true ⟨[botLeft, botRight], [], 2⟩ 0 =
      ⟨[botLeftThought, botRight], [], 2⟩ := by
    rw [tickStep_combat_eq ⟨[botLeft, botRight], [], 2⟩ 0 [botLeft, botRight]
      botLeftThought [] 2 rfl hupd0]
    rfl
  have hstep1 : tickStep true ⟨[botLeftThought, botRight], [], 2⟩ 1 =
      ⟨[botLeftThought, botRightMoved], [], 2⟩ := by
    rw [tickStep_combat_eq ⟨[botLeftThought, botRight], [], 2⟩ 1
      [botLeftThought, botRightMoved] botRightMoved [] 2
      (by rw [show ((([botLeftThought, botRight] : List Entity)).getD 1 default) = botRight
            from rfl, hmv]
          rfl)
      hupd1]
    rfl
  have hstepP0 : behaviorPhaseStep ⟨[botLeft, botRightMoved], [], 2⟩ 0 =
      ⟨[botLeftThoughtP, botRightMoved], [], 2⟩ := by
    rw [behaviorPhaseStep_eq ⟨[botLeft, botRightMoved], [], 2⟩ 0
      botLeftThoughtP [] 2 hupdP0]
    rfl
  have hstepP1 : behaviorPhaseStep ⟨[botLeftThoughtP, botRightMoved], [], 2⟩ 1 =
      ⟨[botLeftThoughtP, botRightMoved], [], 2⟩ := by
    rw [behaviorPhaseStep_eq ⟨[botLeftThoughtP, botRightMoved], [], 2⟩ 1
      botRightMoved [] 2 hupdP1]
    rfl
  have hdLR : getDistance botLeftThought.x botLeftThought.y
      botRightMoved.x botRightMoved.y = 5.2 :=
    getDistance_eq _ _ _ _ _ (by norm_num)
      (by norm_num [botLeftThought, botLeft, botRightMoved, botRight, mkBot])
  have hovLR : ¬ 0 < getCollisionOverlap botLeftThought botRightMoved := by
    simp only [getCollisionOverlap, hdLR]
    norm_num [botLeftThought, botLeft, botRightMoved, botRight, mkBot]
  have hdRL : getDistance botRightMoved.x botRightMoved.y
      botLeftThought.x botLeftThought.y = 5.2 :=
    getDistance_eq _ _ _ _ _ (by norm_num)
      (by norm_num [botLeftThought, botLeft, botRightMoved, botRight, mkBot])
  have hovRL : ¬ 0 < getCollisionOverlap botRightMoved botLeftThought := by
    simp only [getCollisionOverlap, hdRL]
    norm_num [botLeftThought, botLeft, botRightMoved, botRight, mkBot]
  have hdLRP : getDistance botLeftThoughtP.x botLeftThoughtP.y
      botRightMoved.x botRightMoved.y = 5.2 :=
    getDistance_eq _ _ _ _ _ (by norm_num)
      (by norm_num [botLeftThoughtP, botLeft, botRightMoved, botRight, mkBot])
  have hovLRP : ¬ 0 < getCollisionOverlap botLeftThoughtP botRightMoved := by
    simp only [getCollisionOverlap, hdLRP]
    norm_num [botLeftThoughtP, botLeft, botRightMoved, botRight, mkBot]
  have hdRLP : getDistance botRightMoved.x botRightMoved.y
      botLeftThoughtP.x botLeftThoughtP.y = 5.2 :=
    getDistance_eq _ _ _ _ _ (by norm_num)
      (by norm_num [botLeftThoughtP, botLeft, botRightMoved, botRight, mkBot])
  have hovRLP : ¬ 0 < getCollisionOverlap botRightMoved botLeftThoughtP := by
    simp only [getCollisionOverlap, hdRLP]
    norm_num [botLeftThoughtP, botLeft, botRightMoved, botRight, mkBot]
  have hcollA : findAndResolveCollisions [botLeftThought, botRightMoved] =
      [botLeftThought, botRightMoved] := by
    have hscan0 : scanFrom [botLeftThought, botRightMoved] 0 =
        [botLeftThought, botRightMoved] := by
      unfold scanFrom
      rw [show List.range ([botLeftThought, botRightMoved] : List Entity).length =
        [0, 1] from rfl]
      rw [List.foldl_cons, List.foldl_cons, List.foldl_nil]
      rw [collideStep_skip_self 0 0 [botLeftThought, botRightMoved] rfl]
      rw [collideStep_skip_far 0 1 [botLeftThought, botRightMoved] (by exact hovLR)]
    have hscan1 : scanFrom [botLeftThought, botRightMoved] 1 =
        [botLeftThought, botRightMoved] := by
      unfold scanFrom
      rw [show List.range ([botLeftThought, botRightMoved] : List Entity).length =
        [0, 1] from rfl]
      rw [List.foldl_cons, List.foldl_cons, List.foldl_nil]
      rw [collideStep_skip_far 1 0 [botLeftThought, botRightMoved] (by exact hovRL)]
      rw [collideStep_skip_self 1 1 [botLeftThought, botRightMoved] rfl]
    unfold findAndResolveCollisions
    rw [show List.range ([botLeftThought, botRightMoved] : List Entity).length =
      [0, 1] from rfl]
    rw [List.foldl_cons, List.foldl_cons, List.foldl_nil]
    rw [show outerStep [botLeftThought, botRightMoved] 0 =
      scanFrom [botLeftThought, botRightMoved] 0 from by
        unfold outerStep
        rw [if_pos (show (([botLeftThought, botRightMoved] : List Entity).getD 0
          default).collisionClass = CollisionClass.solid from rfl)]]
    rw [hscan0]
    rw [show outerStep [botLeftThought, botRightMoved] 1 =
      scanFrom [botLeftThought, botRightMoved] 1 from by
        unfold outerStep
        rw [if_pos (show (([botLeftThought, botRightMoved] : List Entity).getD 1
          default).collisionClass = CollisionClass.solid from rfl)]]
    rw [hscan1]
  have hcollP : findAndResolveCollisions [botLeftThoughtP, botRightMoved] =
      [botLeftThoughtP, botRightMoved] := by
    have hscan0 : scanFrom [botLeftThoughtP, botRightMoved] 0 =
        [botLeftThoughtP, botRightMoved] := by
      unfold scanFrom
      rw [show List.range ([botLeftThoughtP, botRightMoved] : List Entity).length =
        [0, 1] from rfl]
      rw [List.foldl_cons, List.foldl_cons, List.foldl_nil]
      rw [collideStep_skip_self 0 0 [botLeftThoughtP, botRightMoved] rfl]
      rw [collideStep_skip_far 0 1 [botLeftThoughtP, botRightMoved] (by exact hovLRP)]
    have hscan1 : scanFrom [botLeftThoughtP, botRightMoved] 1 =
        [botLeftThoughtP, botRightMoved] := by
      unfold scanFrom
      rw [show List.range ([botLeftThoughtP, botRightMoved] : List Entity).length =
        [0, 1] from rfl]
      rw [List.foldl_cons, List.foldl_cons, List.foldl_nil]
      rw [collideStep_skip_far 1 0 [botLeftThoughtP, botRightMoved] (by exact hovRLP)]
      rw [collideStep_skip_self 1 1 [botLeftThoughtP, botRightMoved] rfl]
    unfold findAndResolveCollisions
    rw [show List.range ([botLeftThoughtP, botRightMoved] : List Entity).length =
      [0, 1] from rfl]
    rw [List.foldl_cons, List.foldl_cons, List.foldl_nil]
    rw [show outerStep [botLeftThoughtP, botRightMoved] 0 =
      scanFrom [botLeftThoughtP, botRightMoved] 0 from by
        unfold outerStep
        rw [if_pos (show (([botLeftThoughtP, botRightMoved] : List Entity).getD 0
          default).collisionClass = CollisionClass.solid from rfl)]]
    rw [hscan0]
    rw [show outerStep [botLeftThoughtP, botRightMoved] 1 =
      scanFrom [botLeftThoughtP, botRightMoved] 1 from by
        unfold outerStep
        rw [if_pos (show (([botLeftThoughtP, botRightMoved] : List Entity).getD 1
          default).collisionClass = CollisionClass.solid from rfl)]]
    rw [hscan1]
  have hbLT : enforceBoundsOne botLeftThought = botLeftThought := by
    simp only [enforceBoundsOne, isProjectile, botLeftThought, botLeft, mkBot]
    norm_num [enforceBoundsOnCoordinate, maxDistance, min_def, max_def]
  have hbLTP : enforceBoundsOne botLeftThoughtP = botLeftThoughtP := by
    simp only [enforceBoundsOne, isProjectile, botLeftThoughtP, botLeft, mkBot]
    norm_num [enforceBoundsOnCoordinate, maxDistance, min_def, max_def]
  have hbRM : enforceBoundsOne botRightMoved = botRightMoved := by
    simp only [enforceBoundsOne, isProjectile, botRightMoved, botRight, mkBot]
    norm_num [enforceBoundsOnCoordinate, maxDistance, min_def, max_def]
  have hboundsA : enforceBounds [botLeftThought, botRightMoved] =
      [botLeftThought, botRightMoved] := by
    simp only [enforceBounds, List.map_cons, List.map_nil]
    rw [hbLT, hbRM]
  have hboundsP : enforceBounds [botLeftThoughtP, botRightMoved] =
      [botLeftThoughtP, botRightMoved] := by
    simp only [enforceBounds, List.map_cons, List.map_nil]
    rw [hbLTP, hbRM]
  have hloopA : motionBehaviorPhase (inCombat [botLeft, botRight])
      [botLeft, botRight] 2 = ⟨[botLeftThought, botRightMoved], [], 2⟩ := by
    rw [show inCombat [botLeft, botRight] = true from rfl]
    unfold motionBehaviorPhase
    rw [show List.range ([botLeft, botRight] : List Entity).length = [0, 1] from rfl]
    rw [List.foldl_cons, List.foldl_cons, List.foldl_nil, hstep0, hstep1]
  have hactual : updateEntitiesCore [botLeft, botRight] 2 =
      ([botLeftThought, botRightMoved], 2) := by
    simp only [updateEntitiesCore, preReapTick]
    rw [hloopA]
    show ((enforceBounds (findAndResolveCollisions
      ([botLeftThought, botRightMoved] ++ []))).filter (fun e => !e.dead), 2) = _
    rw [List.append_nil, hcollA, hboundsA]
    rfl
  have hphased : specPhasedTick [botLeft, botRight] 2 =
      ([botLeftThoughtP, botRightMoved], 2) := by
    have hmove : movePhase [botLeft, botRight] = [botLeft, botRightMoved] := by
      simp only [movePhase, List.map_cons, List.map_nil]
      rw [show MovingEntity.update botLeft = botLeft from rfl, hmv]
    simp only [specPhasedTick]
    rw [hmove]
    rw [show List.range ([botLeft, botRightMoved] : List Entity).length = [0, 1]
      from rfl]
    rw [List.foldl_cons, List.foldl_cons, List.foldl_nil, hstepP0, hstepP1]
    show ((enforceBounds (findAndResolveCollisions
      ([botLeftThoughtP, botRightMoved] ++ []))).filter (fun e => !e.dead), 2) = _
    rw [List.append_nil, hcollP, hboundsP]
    rfl
  rw [hactual, hphased]
  intro h
  have h5 : (5 : ℝ) = 5.2 := by
    have := congrArg
      (fun p : List Entity × Nat => ((p.1.getD 0 default).moveDirection)) h
    exact this
  norm_num at h5

end

end Battle
